import Mathlib

/-!
# nest_exporter: the poll-and-project cycle

A shallow embedding of `pollNest` (src/main.go, lines 107-182) and of the
metric state it mutates, followed by the properties of one poll cycle and of
sequences of cycles.

Modelling conventions.

* A Prometheus `GaugeVec` is a map from the label values (in the order the
  vector declares its label names) to the current sample.  It is embedded as a
  lookup function into `Option`: `none` is "no such series".
  `vec.With(labels).Set(x)` creates the series when it is missing and
  overwrites its value, which is `Store.set`.
* The response maps (`structures`, `devices.Thermostats`) are iterated with
  `range`.  The Go specification leaves the iteration order over a map
  unspecified, and not guaranteed to be the same from one iteration to the
  next.  A response map is embedded as the list of its entries in the order
  the loop visits them; two lists that are permutations of each other (with
  distinct keys) are the same Go map visited in two different orders.  The
  values of both maps are pointers; a response holds no nil entry.
* Gauge samples are `float64` in Go and are embedded as the rationals they
  denote.  The Celsius readings are `float32`, and `float64(x)` of a `float32`
  is exact, so those fields are rationals written unchanged.  The Fahrenheit
  and humidity readings are `int` (64 bits), and `float64(x)` of an `int`
  rounds to the 53-bit significand, to nearest with ties to even: that
  conversion is `float64` below.
* The two calls on the API client are effects.  A `Client` value holds what
  each call answers during one cycle, and `pollNest` returns, next to the new
  metric state, the list of calls it performed.
-/

namespace NestExporter

/-! ## Data model -/

/-- Finite map as a lookup function; `none` means the key is absent. -/
abbrev Store (κ ν : Type) := κ → Option ν

/-- The empty map. -/
def Store.empty {κ ν : Type} : Store κ ν := fun _ => none

/-- Overwrite (or create) the entry at `k`: Go's `m[k] = v`, and for a gauge
vector `vec.With(labels).Set(v)`. -/
def Store.set {κ ν : Type} [DecidableEq κ] (m : Store κ ν) (k : κ) (v : ν) : Store κ ν :=
  fun x => if x = k then some v else m x

/-- Go's `m[k]` on a `map[string]string`: the zero value `""` for a missing key. -/
def Store.index (m : Store String String) (k : String) : String :=
  (m k).getD ""

/-- A gauge vector: label values (in declaration order) to the current sample. -/
abbrev GaugeVec := Store (List String) ℚ

/-- The fields of `nest.Structure` that `pollNest` reads. -/
structure Structure where
  Name : String
  Away : String
deriving DecidableEq

/-- The fields of `nest.Thermostat` that `pollNest` reads. -/
structure Thermostat where
  StructureID : String
  Name : String
  AmbientTemperatureC : ℚ
  AmbientTemperatureF : Int
  TargetTemperatureC : ℚ
  TargetTemperatureF : Int
  Humidity : Int
  HvacState : String
  IsUsingEmergencyHeat : Bool
deriving DecidableEq

/-- The part of `nest.Devices` that `pollNest` reads: the thermostats, keyed by
device identifier, in iteration order. -/
structure Devices where
  Thermostats : List (String × Thermostat)

/-- The package-level metric variables of src/main.go (lines 33-73). -/
structure Metrics where
  errCount : ℚ
  away : GaugeVec
  ambientTempC : GaugeVec
  ambientTempF : GaugeVec
  humidity : GaugeVec
  targetTempC : GaugeVec
  targetTempF : GaugeVec
  hvacState : GaugeVec
  emergencyHeatState : GaugeVec

/-- The metric state at process start: counter at zero, no series. -/
def Metrics.init : Metrics :=
  ⟨0, Store.empty, Store.empty, Store.empty, Store.empty, Store.empty, Store.empty,
    Store.empty, Store.empty⟩

/-- The seven gauge vectors labelled by structure and device. -/
def Metrics.deviceFamilies : List (Metrics → GaugeVec) :=
  [Metrics.ambientTempC, Metrics.ambientTempF, Metrics.targetTempC, Metrics.targetTempF,
    Metrics.humidity, Metrics.hvacState, Metrics.emergencyHeatState]

/-- All eight gauge vectors of a metric state (everything but the error counter). -/
def Metrics.gauges (s : Metrics) : List GaugeVec :=
  s.away :: Metrics.deviceFamilies.map (fun f => f s)

/-- The two calls `pollNest` can make on the API client. -/
inductive Call where
  | Structures
  | Devices
deriving DecidableEq

/-- What the remote API answers to each call during one poll cycle. -/
structure Client where
  Structures : Except String (List (String × Structure))
  Devices : Except String Devices

/-! ## Conversion of integer readings -/

/-- The number of low bits of `a` that do not fit in a 53-bit significand. -/
def excessBits : Nat → Nat → Nat
  | 0, _ => 0
  | fuel + 1, a => if a < 2 ^ 53 then 0 else excessBits fuel (a / 2) + 1

/-- The magnitude `a` rounded to 53 significant bits, to nearest, ties to the
even significand. -/
def roundToSignificand (a : Nat) : Nat :=
  let e := excessBits 64 a
  let q := a / 2 ^ e
  let r := a % 2 ^ e
  if 2 ^ e < 2 * r ∨ (2 * r = 2 ^ e ∧ q % 2 = 1) then (q + 1) * 2 ^ e else q * 2 ^ e

/-- Go's conversion `float64(n)` of an `int`: exact up to magnitude 2^53,
rounded to the nearest representable value beyond (a Go `int` is below 2^63 in
magnitude, so no overflow arises). -/
def float64 (n : Int) : ℚ :=
  if n.natAbs ≤ 2 ^ 53 then (n : ℚ)
  else ((n.sign * (roundToSignificand n.natAbs : Int) : Int) : ℚ)

/-! ## The poll cycle -/

/-- Body of the loop over `structures` (lines 114-125); the accumulator is the
local `structureIDToName` and the metric state. -/
def structureBody (acc : Store String String × Metrics) (kv : String × Structure) :
    Store String String × Metrics :=
  let k := kv.1
  let v := kv.2
  let structureIDToName := acc.1.set k v.Name
  let s := acc.2
  if v.Away = "away" then
    (structureIDToName, { s with away := s.away.set [v.Name] 1 })
  else if v.Away = "home" then
    (structureIDToName, { s with away := s.away.set [v.Name] 0 })
  else
    (structureIDToName, { s with away := s.away.set [v.Name] 2 })

/-- The label values every device gauge is addressed with (lines 133-135 and
its repetitions): the looked-up structure name, then the device name. -/
def deviceLabels (structureIDToName : Store String String) (v : Thermostat) : List String :=
  [structureIDToName.index v.StructureID, v.Name]

/-- Body of the loop over `devices.Thermostats` (lines 132-181); `labels` is
the label set the source spells out at each of the eight writes. -/
def thermostatBody (structureIDToName : Store String String) (s : Metrics)
    (kv : String × Thermostat) : Metrics :=
  let v := kv.2
  let labels := deviceLabels structureIDToName v
  let s := { s with ambientTempC := s.ambientTempC.set labels v.AmbientTemperatureC }
  let s := { s with ambientTempF := s.ambientTempF.set labels (float64 v.AmbientTemperatureF) }
  let s := { s with targetTempC := s.targetTempC.set labels v.TargetTemperatureC }
  let s := { s with targetTempF := s.targetTempF.set labels (float64 v.TargetTemperatureF) }
  let s := { s with humidity := s.humidity.set labels (float64 v.Humidity) }
  if v.HvacState = "heating" then
    { s with hvacState := s.hvacState.set labels 1 }
  else if v.HvacState = "cooling" then
    { s with hvacState := s.hvacState.set labels (-1) }
  else
    let s := { s with hvacState := s.hvacState.set labels 0 }
    if v.IsUsingEmergencyHeat then
      { s with emergencyHeatState := s.emergencyHeatState.set labels 1 }
    else
      { s with emergencyHeatState := s.emergencyHeatState.set labels 0 }

/-- One poll cycle, `pollNest` (lines 107-182): the metric state after the
cycle and the client calls performed, in order. -/
def pollNest (client : Client) (s : Metrics) : Metrics × List Call :=
  match client.Structures with
  | .error _ => ({ s with errCount := s.errCount + 1 }, [Call.Structures])
  | .ok structures =>
    let acc := structures.foldl structureBody (Store.empty, s)
    let structureIDToName := acc.1
    let s := acc.2
    match client.Devices with
    | .error _ => ({ s with errCount := s.errCount + 1 }, [Call.Structures, Call.Devices])
    | .ok devices =>
      (devices.Thermostats.foldl (thermostatBody structureIDToName) s,
        [Call.Structures, Call.Devices])

/-- The polling loop of `main` (lines 97-104), cut after finitely many cycles:
the cycles run one after the other on the shared metric state. -/
def pollLoop (cycles : List Client) (s : Metrics) : Metrics :=
  cycles.foldl (fun st c => (pollNest c st).1) s

/-! ## Specification vocabulary -/

/-- The occupancy mapping in the words of the specification: `away` is 1,
`home` is 0, anything else is 2. -/
def awayValue (a : String) : ℚ :=
  if a = "away" then 1 else if a = "home" then 0 else 2

/-- The HVAC mapping in the words of the specification: `heating` is 1,
`cooling` is -1, anything else is 0. -/
def hvacValue (h : String) : ℚ :=
  if h = "heating" then 1 else if h = "cooling" then -1 else 0

/-- The emergency-heat mapping in the words of the specification: 1 when the
flag is set, 0 otherwise. -/
def emergencyValue (b : Bool) : ℚ :=
  if b then 1 else 0

/-- Replaying a list of optional writes, in order, on a map. -/
def applyWrites {α κ ν : Type} [DecidableEq κ] (w : α → Option (κ × ν)) (l : List α)
    (m : Store κ ν) : Store κ ν :=
  l.foldl (fun acc x => match w x with
    | some kv => acc.set kv.1 kv.2
    | none => acc) m

/-- The value the last write to `k` in `l` leaves, `none` when `l` never writes `k`. -/
def lastWrite {α κ ν : Type} [DecidableEq κ] (w : α → Option (κ × ν)) (l : List α)
    (k : κ) : Option ν :=
  applyWrites w l Store.empty k

/-- The write of the structure loop into `structureIDToName`. -/
def wName (kv : String × Structure) : Option (String × String) :=
  some (kv.1, kv.2.Name)

/-- The write of the structure loop into the occupancy gauge. -/
def wAway (kv : String × Structure) : Option (List String × ℚ) :=
  some ([kv.2.Name], awayValue kv.2.Away)

/-- The local `structureIDToName` once the structure loop has run over
`structures` (lines 113-115). -/
def structureIDToName (structures : List (String × Structure)) : Store String String :=
  applyWrites wName structures Store.empty

/-- The label set of a thermostat in a cycle whose structures response is
`structures`. -/
def labelsOf (structures : List (String × Structure)) (v : Thermostat) : List String :=
  deviceLabels (structureIDToName structures) v

/-- The write of the thermostat loop into a gauge that takes a reading. -/
def wReading (m : Store String String) (f : Thermostat → ℚ) (kv : String × Thermostat) :
    Option (List String × ℚ) :=
  some (deviceLabels m kv.2, f kv.2)

/-- The write of the thermostat loop into the emergency-heat gauge: none when
the thermostat is heating or cooling. -/
def wEmergency (m : Store String String) (kv : String × Thermostat) :
    Option (List String × ℚ) :=
  if kv.2.HvacState = "heating" ∨ kv.2.HvacState = "cooling" then none
  else some (deviceLabels m kv.2, emergencyValue kv.2.IsUsingEmergencyHeat)

/-- The thermostat loop read as eight independent replays of writes, one per
gauge vector it touches. -/
def replayThermostats (m : Store String String) (l : List (String × Thermostat))
    (s : Metrics) : Metrics where
  errCount := s.errCount
  away := s.away
  ambientTempC := applyWrites (wReading m (·.AmbientTemperatureC)) l s.ambientTempC
  ambientTempF := applyWrites (wReading m (fun v => float64 v.AmbientTemperatureF)) l s.ambientTempF
  humidity := applyWrites (wReading m (fun v => float64 v.Humidity)) l s.humidity
  targetTempC := applyWrites (wReading m (·.TargetTemperatureC)) l s.targetTempC
  targetTempF := applyWrites (wReading m (fun v => float64 v.TargetTemperatureF)) l s.targetTempF
  hvacState := applyWrites (wReading m (fun v => hvacValue v.HvacState)) l s.hvacState
  emergencyHeatState := applyWrites (wEmergency m) l s.emergencyHeatState

/-- The seven writes one pass of the thermostat loop makes, one per device
gauge vector. -/
def deviceWrites (m : Store String String) :
    List (String × Thermostat → Option (List String × ℚ)) :=
  [wReading m (·.AmbientTemperatureC), wReading m (fun v => float64 v.AmbientTemperatureF),
    wReading m (·.TargetTemperatureC), wReading m (fun v => float64 v.TargetTemperatureF),
    wReading m (fun v => float64 v.Humidity), wReading m (fun v => hvacValue v.HvacState),
    wEmergency m]

/-- The display name a structures response gives for an identifier, in the
words of the specification: the name of the entry with that identifier, the
empty string when there is none. -/
def displayName (structures : List (String × Structure)) (id : String) : String :=
  match structures.find? (fun kv => kv.1 = id) with
  | some kv => kv.2.Name
  | none => ""

/-- Two thermostats report the same samples: the five readings, the HVAC
state and the emergency-heat flag coincide. -/
def Thermostat.sameSamples (a b : Thermostat) : Prop :=
  a.AmbientTemperatureC = b.AmbientTemperatureC ∧
  a.AmbientTemperatureF = b.AmbientTemperatureF ∧
  a.TargetTemperatureC = b.TargetTemperatureC ∧
  a.TargetTemperatureF = b.TargetTemperatureF ∧
  a.Humidity = b.Humidity ∧
  a.HvacState = b.HvacState ∧
  a.IsUsingEmergencyHeat = b.IsUsingEmergencyHeat

/-- The structures a cycle gets back: none when the fetch fails. -/
def Client.returnedStructures (c : Client) : List (String × Structure) :=
  match c.Structures with
  | .ok l => l
  | .error _ => []

/-- The thermostats a cycle gets back: none when either fetch fails (after a
failed structures fetch the devices fetch is not made). -/
def Client.returnedThermostats (c : Client) : List (String × Thermostat) :=
  match c.Structures, c.Devices with
  | .ok _, .ok d => d.Thermostats
  | _, _ => []

/-- Whether the client answers the given call with an error. -/
def Client.fails (c : Client) : Call → Bool
  | Call.Structures => match c.Structures with
    | .ok _ => false
    | .error _ => true
  | Call.Devices => match c.Devices with
    | .ok _ => false
    | .error _ => true

/-! ## Concrete responses -/

/-- The structures response of the specification's scenario. -/
def scenarioStructures : List (String × Structure) :=
  [("s1", ⟨"Home", "home"⟩)]

/-- The devices response of the specification's scenario. -/
def scenarioThermostats : List (String × Thermostat) :=
  [("t1", ⟨"s1", "Hallway", 21, 70, 22, 72, 40, "heating", false⟩)]

/-- A cycle in which both fetches succeed with the scenario's responses. -/
def scenarioClient : Client :=
  ⟨.ok scenarioStructures, .ok ⟨scenarioThermostats⟩⟩

/-- A cycle in which the structures fetch fails. -/
def structuresDown : Client :=
  ⟨.error "unreachable", .ok ⟨scenarioThermostats⟩⟩

/-- A cycle in which the structures fetch succeeds and the devices fetch fails. -/
def devicesDown : Client :=
  ⟨.ok scenarioStructures, .error "unreachable"⟩

/-- Two structures with distinct identifiers and one display name, in
different occupancy states. -/
def twoHomes : List (String × Structure) :=
  [("s1", ⟨"Home", "away"⟩), ("s2", ⟨"Home", "home"⟩)]

/-- Two thermostats of one structure with the same name, one heating and one
cooling. -/
def heatingAndCooling : List (String × Thermostat) :=
  [("t1", ⟨"s1", "Hallway", 21, 70, 22, 72, 40, "heating", false⟩),
    ("t2", ⟨"s1", "Hallway", 21, 70, 22, 72, 40, "cooling", false⟩)]

/-- Two thermostats of one structure with the same name, one heating and one
idle. -/
def heatingAndIdle : List (String × Thermostat) :=
  [("t1", ⟨"s1", "Hallway", 21, 70, 22, 72, 40, "heating", true⟩),
    ("t2", ⟨"s1", "Hallway", 21, 70, 22, 72, 40, "off", false⟩)]

/-- Two idle thermostats of one structure with the same name whose
emergency-heat flags differ. -/
def idleFlagsDiffer : List (String × Thermostat) :=
  [("t1", ⟨"s1", "Hallway", 21, 70, 22, 72, 40, "off", true⟩),
    ("t2", ⟨"s1", "Hallway", 21, 70, 22, 72, 40, "off", false⟩)]

/-- Two thermostats of one structure with the same name whose readings differ. -/
def readingsDiffer : List (String × Thermostat) :=
  [("t1", ⟨"s1", "Hallway", 21, 70, 22, 72, 40, "heating", false⟩),
    ("t2", ⟨"s1", "Hallway", 19, 66, 20, 68, 45, "heating", false⟩)]

/-- One thermostat whose ambient Fahrenheit reading is 2^53 + 1. -/
def hugeReading : List (String × Thermostat) :=
  [("t1", ⟨"s1", "Hallway", 21, 9007199254740993, 22, 72, 40, "heating", false⟩)]

/-- One map of two structures that share a display name, in the order a
first cycle visits it. -/
def cabinsFirstVisit : List (String × Structure) :=
  [("a", ⟨"Cabin", "home"⟩), ("b", ⟨"Cabin", "away"⟩)]

/-- The same map, in the order a second cycle visits it. -/
def cabinsSecondVisit : List (String × Structure) :=
  [("b", ⟨"Cabin", "away"⟩), ("a", ⟨"Cabin", "home"⟩)]

/-! ## Replaying writes -/

section Writes

variable {α κ ν : Type} [DecidableEq κ]

theorem applyWrites_nil (w : α → Option (κ × ν)) (m : Store κ ν) :
    applyWrites w [] m = m := rfl

theorem applyWrites_cons (w : α → Option (κ × ν)) (x : α) (l : List α) (m : Store κ ν) :
    applyWrites w (x :: l) m
      = applyWrites w l (match w x with
          | some kv => m.set kv.1 kv.2
          | none => m) := rfl

/-- Pointwise, replaying writes gives the last value written, or else what
was there before. -/
theorem applyWrites_apply (w : α → Option (κ × ν)) (l : List α) (m : Store κ ν) (k : κ) :
    applyWrites w l m k = (lastWrite w l k).or (m k) := by
  induction l generalizing m with
  | nil => simp [lastWrite, applyWrites_nil, Store.empty]
  | cons x l ih =>
    unfold lastWrite
    rw [applyWrites_cons, applyWrites_cons, ih, ih (m := match w x with
      | some kv => Store.set Store.empty kv.1 kv.2
      | none => Store.empty)]
    cases hx : w x with
    | none => simp [Store.empty]
    | some kv =>
      by_cases hk : k = kv.1
      · cases h : lastWrite w l k <;> simp [Store.set, hk]
      · cases h : lastWrite w l k <;> simp [Store.set, hk, Store.empty]

theorem lastWrite_cons (w : α → Option (κ × ν)) (x : α) (l : List α) (k : κ) :
    lastWrite w (x :: l) k
      = (lastWrite w l k).or (match w x with
          | some kv => if k = kv.1 then some kv.2 else none
          | none => none) := by
  unfold lastWrite
  rw [applyWrites_cons, applyWrites_apply]
  cases hx : w x <;> simp [Store.set, Store.empty, lastWrite]

/-- A last-written value was written by some element of the list. -/
theorem lastWrite_some_mem (w : α → Option (κ × ν)) (l : List α) (k : κ) (v : ν)
    (h : lastWrite w l k = some v) : ∃ x ∈ l, w x = some (k, v) := by
  induction l with
  | nil => simp [lastWrite, applyWrites_nil, Store.empty] at h
  | cons x l ih =>
    rw [lastWrite_cons] at h
    cases ht : lastWrite w l k with
    | some v' =>
      rw [ht] at h
      simp at h
      subst h
      obtain ⟨y, hy, hw⟩ := ih ht
      exact ⟨y, List.mem_cons_of_mem _ hy, hw⟩
    | none =>
      rw [ht] at h
      cases hx : w x with
      | none => simp [hx] at h
      | some kv =>
        simp [hx] at h
        obtain ⟨hk, hv⟩ := h
        refine ⟨x, List.mem_cons_self _ _, ?_⟩
        rw [hx, hk, ← hv]

/-- A key some element writes has a last-written value. -/
theorem lastWrite_isSome_of_mem (w : α → Option (κ × ν)) (l : List α) (k : κ) (v : ν)
    (x : α) (hx : x ∈ l) (hw : w x = some (k, v)) : ∃ v', lastWrite w l k = some v' := by
  induction l with
  | nil => simp at hx
  | cons y l ih =>
    rw [lastWrite_cons]
    cases ht : lastWrite w l k with
    | some v' => exact ⟨v', by simp⟩
    | none =>
      rcases List.mem_cons.mp hx with rfl | hmem
      · exact ⟨v, by simp [hw]⟩
      · obtain ⟨v', hv'⟩ := ih hmem
        rw [ht] at hv'
        cases hv'

/-- A key no element writes keeps its value. -/
theorem applyWrites_untouched (w : α → Option (κ × ν)) (l : List α) (m : Store κ ν) (k : κ)
    (h : ∀ x ∈ l, ∀ v, w x ≠ some (k, v)) : applyWrites w l m k = m k := by
  rw [applyWrites_apply]
  cases ht : lastWrite w l k with
  | none => simp
  | some v =>
    obtain ⟨x, hx, hw⟩ := lastWrite_some_mem w l k v ht
    exact absurd hw (h x hx v)

/-- A key all of whose writers write the same value ends with that value. -/
theorem applyWrites_agree (w : α → Option (κ × ν)) (l : List α) (m : Store κ ν) (k : κ)
    (v : ν) (x : α) (hx : x ∈ l) (hw : w x = some (k, v))
    (h : ∀ y ∈ l, ∀ v', w y = some (k, v') → v' = v) : applyWrites w l m k = some v := by
  rw [applyWrites_apply]
  obtain ⟨v', hv'⟩ := lastWrite_isSome_of_mem w l k v x hx hw
  obtain ⟨y, hy, hwy⟩ := lastWrite_some_mem w l k v' hv'
  rw [hv', h y hy v' hwy]
  simp

/-- A series that exists is never removed by replaying writes. -/
theorem applyWrites_isSome (w : α → Option (κ × ν)) (l : List α) (m : Store κ ν) (k : κ)
    (h : (m k).isSome) : (applyWrites w l m k).isSome := by
  rw [applyWrites_apply]
  cases ht : lastWrite w l k with
  | none => simpa using h
  | some v => simp

/-- Replaying the same writes in the same order a second time changes nothing. -/
theorem applyWrites_idem (w : α → Option (κ × ν)) (l : List α) (m : Store κ ν) :
    applyWrites w l (applyWrites w l m) = applyWrites w l m := by
  funext k
  rw [applyWrites_apply, applyWrites_apply w l m k]
  cases lastWrite w l k <;> simp

/-- When writers of one key agree on the value, the order of the writes is
irrelevant. -/
theorem lastWrite_perm (w : α → Option (κ × ν)) (l₁ l₂ : List α) (hp : l₁.Perm l₂)
    (h : ∀ x ∈ l₁, ∀ y ∈ l₁, ∀ k v v', w x = some (k, v) → w y = some (k, v') → v = v') :
    lastWrite w l₁ = lastWrite w l₂ := by
  funext k
  cases h₁ : lastWrite w l₁ k with
  | none =>
    cases h₂ : lastWrite w l₂ k with
    | none => rfl
    | some v =>
      obtain ⟨x, hx, hw⟩ := lastWrite_some_mem w l₂ k v h₂
      obtain ⟨v', hv'⟩ := lastWrite_isSome_of_mem w l₁ k v x (hp.mem_iff.mpr hx) hw
      rw [h₁] at hv'
      cases hv'
  | some v =>
    obtain ⟨x, hx, hw⟩ := lastWrite_some_mem w l₁ k v h₁
    obtain ⟨v', hv'⟩ := lastWrite_isSome_of_mem w l₂ k v x (hp.mem_iff.mp hx) hw
    obtain ⟨y, hy, hwy⟩ := lastWrite_some_mem w l₂ k v' hv'
    rw [hv', h x hx y (hp.mem_iff.mpr hy) k v v' hw hwy]

/-- Replaying a permutation of agreeing writes after the writes themselves
changes nothing. -/
theorem applyWrites_perm_idem (w : α → Option (κ × ν)) (l₁ l₂ : List α) (m : Store κ ν)
    (hp : l₁.Perm l₂)
    (h : ∀ x ∈ l₁, ∀ y ∈ l₁, ∀ k v v', w x = some (k, v) → w y = some (k, v') → v = v') :
    applyWrites w l₂ (applyWrites w l₁ m) = applyWrites w l₁ m := by
  funext k
  rw [applyWrites_apply, applyWrites_apply w l₁ m k, ← lastWrite_perm w l₁ l₂ hp h]
  cases lastWrite w l₁ k <;> simp

end Writes

/-! ## The loops as replayed writes -/

/-- The three-way switch on `Away` writes `awayValue`. -/
theorem structureBody_eq (acc : Store String String × Metrics) (kv : String × Structure) :
    structureBody acc kv
      = (acc.1.set kv.1 kv.2.Name,
          { acc.2 with away := acc.2.away.set [kv.2.Name] (awayValue kv.2.Away) }) := by
  unfold structureBody awayValue
  by_cases h₁ : kv.2.Away = "away"
  · simp [h₁]
  · by_cases h₂ : kv.2.Away = "home"
    · simp [h₂]
    · simp [h₁, h₂]

/-- The structure loop, as writes into the lookup and into the occupancy gauge. -/
theorem structures_foldl (structures : List (String × Structure)) (m : Store String String)
    (s : Metrics) :
    structures.foldl structureBody (m, s)
      = (applyWrites wName structures m,
          { s with away := applyWrites wAway structures s.away }) := by
  induction structures generalizing m s with
  | nil => rfl
  | cons kv l ih =>
    rw [List.foldl_cons, structureBody_eq, ih]
    rfl

/-- One pass of the thermostat loop body, as the eight gauge writes. -/
theorem thermostatBody_eq (m : Store String String) (s : Metrics) (kv : String × Thermostat) :
    thermostatBody m s kv = replayThermostats m [kv] s := by
  unfold thermostatBody replayThermostats
  by_cases h₁ : kv.2.HvacState = "heating"
  · simp [applyWrites, wReading, wEmergency, hvacValue, h₁]
  · by_cases h₂ : kv.2.HvacState = "cooling"
    · simp [applyWrites, wReading, wEmergency, hvacValue, h₂]
    · cases h₃ : kv.2.IsUsingEmergencyHeat <;>
        simp [applyWrites, wReading, wEmergency, hvacValue, emergencyValue, h₁, h₂, h₃]

/-- The thermostat loop, as eight replays of writes. -/
theorem thermostats_foldl (m : Store String String) (l : List (String × Thermostat))
    (s : Metrics) : l.foldl (thermostatBody m) s = replayThermostats m l s := by
  induction l generalizing s with
  | nil => rfl
  | cons kv l ih =>
    rw [List.foldl_cons, thermostatBody_eq, ih]
    rfl

/-- A cycle whose structures fetch fails. -/
theorem pollNest_structures_error (c : Client) (s : Metrics) (e : String)
    (h : c.Structures = .error e) :
    pollNest c s = ({ s with errCount := s.errCount + 1 }, [Call.Structures]) := by
  unfold pollNest
  rw [h]

/-- A cycle whose structures fetch succeeds and whose devices fetch fails. -/
theorem pollNest_devices_error (c : Client) (s : Metrics) (l : List (String × Structure))
    (e : String) (h : c.Structures = .ok l) (hd : c.Devices = .error e) :
    pollNest c s
      = ({ s with errCount := s.errCount + 1, away := applyWrites wAway l s.away },
          [Call.Structures, Call.Devices]) := by
  unfold pollNest
  rw [h]
  simp only [hd, structures_foldl]

/-- A cycle both of whose fetches succeed. -/
theorem pollNest_ok (c : Client) (s : Metrics) (l : List (String × Structure)) (d : Devices)
    (h : c.Structures = .ok l) (hd : c.Devices = .ok d) :
    pollNest c s
      = (replayThermostats (structureIDToName l) d.Thermostats
            { s with away := applyWrites wAway l s.away },
          [Call.Structures, Call.Devices]) := by
  unfold pollNest
  rw [h]
  simp only [hd, structures_foldl, thermostats_foldl, structureIDToName]

/-- The occupancy gauge after any cycle whose structures fetch succeeds. -/
theorem pollNest_away (c : Client) (s : Metrics) (l : List (String × Structure))
    (h : c.Structures = .ok l) : (pollNest c s).1.away = applyWrites wAway l s.away := by
  cases hd : c.Devices with
  | error e => rw [pollNest_devices_error c s l e h hd]
  | ok d => rw [pollNest_ok c s l d h hd]; rfl

theorem structureIDToName_apply (structures : List (String × Structure)) (id : String) :
    structureIDToName structures id = lastWrite wName structures id := rfl

/-- With distinct identifiers, an identifier that occurs in the response is
looked up to the name of its entry. -/
theorem structureIDToName_index_of_mem (structures : List (String × Structure))
    (hk : (structures.map Prod.fst).Nodup) (id : String) (st : Structure)
    (hm : (id, st) ∈ structures) : (structureIDToName structures).index id = st.Name := by
  have hv : structureIDToName structures id = some st.Name := by
    unfold structureIDToName
    refine applyWrites_agree wName structures Store.empty id st.Name (id, st) hm rfl ?_
    intro y hy v' hw
    simp only [wName, Option.some.injEq, Prod.mk.injEq] at hw
    have hyeq : y = (id, st) := List.inj_on_of_nodup_map hk hy hm hw.1
    rw [← hw.2, hyeq]
  simp [Store.index, hv]

/-- An identifier that does not occur in the response is looked up to `""`. -/
theorem structureIDToName_index_of_not_mem (structures : List (String × Structure))
    (id : String) (hm : ∀ st, (id, st) ∉ structures) :
    (structureIDToName structures).index id = "" := by
  have hv : structureIDToName structures id = none := by
    unfold structureIDToName
    rw [applyWrites_untouched wName structures Store.empty id]
    · rfl
    · intro x hx v hw
      simp only [wName, Option.some.injEq, Prod.mk.injEq] at hw
      apply hm x.2
      rw [← hw.1]
      exact hx
  simp [Store.index, hv]

/-- With distinct identifiers, the lookup built by the structure loop is the
display name the response gives. -/
theorem structureIDToName_index (structures : List (String × Structure))
    (hk : (structures.map Prod.fst).Nodup) (id : String) :
    (structureIDToName structures).index id = displayName structures id := by
  unfold displayName
  cases hf : structures.find? (fun kv => kv.1 = id) with
  | none =>
    apply structureIDToName_index_of_not_mem
    intro st hm
    have := List.find?_eq_none.mp hf (id, st) hm
    simp at this
  | some kv =>
    have hm : kv ∈ structures := List.mem_of_find?_eq_some hf
    have hid : kv.1 = id := by simpa using List.find?_some hf
    have hm' : (id, kv.2) ∈ structures := by rw [← hid]; exact hm
    exact structureIDToName_index_of_mem structures hk id kv.2 hm'

/-- The lookup built by the structure loop does not depend on the order in
which a map with distinct identifiers is visited. -/
theorem structureIDToName_perm (l₁ l₂ : List (String × Structure)) (hp : l₁.Perm l₂)
    (hk : (l₁.map Prod.fst).Nodup) : structureIDToName l₁ = structureIDToName l₂ := by
  have h := lastWrite_perm wName l₁ l₂ hp (by
    intro x hx y hy k v v' hwx hwy
    simp only [wName, Option.some.injEq, Prod.mk.injEq] at hwx hwy
    have hxy : x = y := List.inj_on_of_nodup_map hk hx hy (hwx.1.trans hwy.1.symm)
    rw [← hwx.2, ← hwy.2, hxy])
  funext id
  rw [structureIDToName_apply, structureIDToName_apply, h]

/-- A reading gauge at the label set of a returned thermostat, when the
writers of that label set agree on the reading. -/
theorem wReading_agree (m : Store String String) (f : Thermostat → ℚ)
    (l : List (String × Thermostat)) (g : GaugeVec) (kv : String × Thermostat) (hkv : kv ∈ l)
    (hagree : ∀ kv' ∈ l, deviceLabels m kv'.2 = deviceLabels m kv.2 → f kv'.2 = f kv.2) :
    applyWrites (wReading m f) l g (deviceLabels m kv.2) = some (f kv.2) := by
  refine applyWrites_agree (wReading m f) l g _ _ kv hkv rfl ?_
  intro y hy v' hw
  simp only [wReading, Option.some.injEq, Prod.mk.injEq] at hw
  rw [← hw.2]
  exact hagree y hy hw.1

/-- Source-level label sets spelled with the display name. -/
theorem labelsOf_eq (structures : List (String × Structure))
    (hk : (structures.map Prod.fst).Nodup) (v : Thermostat) :
    labelsOf structures v = [displayName structures v.StructureID, v.Name] := by
  unfold labelsOf deviceLabels
  rw [structureIDToName_index structures hk]

/-- Each device gauge vector is, after the thermostat loop, a replay of
writes addressed at the label sets of the thermostats, and is read off
unchanged from a state that differs in the occupancy gauge or the counter. -/
theorem deviceFamilies_replay (m : Store String String) (f : Metrics → GaugeVec)
    (hf : f ∈ Metrics.deviceFamilies) :
    ∃ w : String × Thermostat → Option (List String × ℚ),
      (∀ kv k v, w kv = some (k, v) → k = deviceLabels m kv.2) ∧
      (∀ l s, f (replayThermostats m l s) = applyWrites w l (f s)) ∧
      (∀ (s : Metrics) a, f { s with away := a } = f s) ∧
      (∀ (s : Metrics) e, f { s with errCount := e } = f s) := by
  have hr : ∀ (g : Thermostat → ℚ) (kv : String × Thermostat) (k : List String) (v : ℚ),
      wReading m g kv = some (k, v) → k = deviceLabels m kv.2 := by
    intro g kv k v hw
    simp only [wReading, Option.some.injEq, Prod.mk.injEq] at hw
    exact hw.1.symm
  have he : ∀ (kv : String × Thermostat) (k : List String) (v : ℚ),
      wEmergency m kv = some (k, v) → k = deviceLabels m kv.2 := by
    intro kv k v hw
    unfold wEmergency at hw
    by_cases hx : kv.2.HvacState = "heating" ∨ kv.2.HvacState = "cooling"
    · simp [hx] at hw
    · rw [if_neg hx] at hw
      simp only [Option.some.injEq, Prod.mk.injEq] at hw
      exact hw.1.symm
  simp only [Metrics.deviceFamilies, List.mem_cons, List.mem_singleton, List.mem_nil_iff,
    or_false] at hf
  rcases hf with rfl | rfl | rfl | rfl | rfl | rfl | rfl
  · exact ⟨wReading m (·.AmbientTemperatureC), hr _, fun _ _ => rfl, fun _ _ => rfl,
      fun _ _ => rfl⟩
  · exact ⟨wReading m (fun v => float64 v.AmbientTemperatureF), hr _, fun _ _ => rfl,
      fun _ _ => rfl, fun _ _ => rfl⟩
  · exact ⟨wReading m (·.TargetTemperatureC), hr _, fun _ _ => rfl, fun _ _ => rfl,
      fun _ _ => rfl⟩
  · exact ⟨wReading m (fun v => float64 v.TargetTemperatureF), hr _, fun _ _ => rfl,
      fun _ _ => rfl, fun _ _ => rfl⟩
  · exact ⟨wReading m (fun v => float64 v.Humidity), hr _, fun _ _ => rfl, fun _ _ => rfl,
      fun _ _ => rfl⟩
  · exact ⟨wReading m (fun v => hvacValue v.HvacState), hr _, fun _ _ => rfl, fun _ _ => rfl,
      fun _ _ => rfl⟩
  · exact ⟨wEmergency m, he, fun _ _ => rfl, fun _ _ => rfl, fun _ _ => rfl⟩

/-- The counter after one cycle lies between its old value and that plus one. -/
theorem pollNest_errCount_bounds (c : Client) (s : Metrics) :
    s.errCount ≤ (pollNest c s).1.errCount ∧ (pollNest c s).1.errCount ≤ s.errCount + 1 := by
  cases h : c.Structures with
  | error e =>
    rw [pollNest_structures_error c s e h]
    simp
  | ok l =>
    cases hd : c.Devices with
    | error e =>
      rw [pollNest_devices_error c s l e h hd]
      simp
    | ok d =>
      rw [pollNest_ok c s l d h hd]
      simp [replayThermostats]

theorem pollLoop_cons (c : Client) (cycles : List Client) (s : Metrics) :
    pollLoop (c :: cycles) s = pollLoop cycles (pollNest c s).1 := rfl

theorem pollLoop_append (cycles more : List Client) (s : Metrics) :
    pollLoop (cycles ++ more) s = pollLoop more (pollLoop cycles s) := by
  unfold pollLoop
  rw [List.foldl_append]

/-- Over a run of cycles the counter does not decrease and gains at most one
per cycle. -/
theorem pollLoop_errCount_bounds (cycles : List Client) (s : Metrics) :
    s.errCount ≤ (pollLoop cycles s).errCount ∧
    (pollLoop cycles s).errCount ≤ s.errCount + cycles.length := by
  induction cycles generalizing s with
  | nil => simp [pollLoop]
  | cons c cycles ih =>
    rw [pollLoop_cons]
    have hb := pollNest_errCount_bounds c s
    have hi := ih (pollNest c s).1
    refine ⟨le_trans hb.1 hi.1, ?_⟩
    have : ((c :: cycles).length : ℚ) = cycles.length + 1 := by simp
    rw [this]
    linarith [hb.2, hi.2]

/-- Two successive successful cycles leave the gauges of the first when each
gauge vector absorbs the second replay. -/
theorem gauges_replay_twice (m : Store String String) (l l' : List (String × Structure))
    (t t' : List (String × Thermostat)) (s : Metrics)
    (haway : applyWrites wAway l' (applyWrites wAway l s.away) = applyWrites wAway l s.away)
    (hdev : ∀ w ∈ deviceWrites m, ∀ g : GaugeVec,
      applyWrites w t' (applyWrites w t g) = applyWrites w t g) :
    (replayThermostats m t'
        { replayThermostats m t { s with away := applyWrites wAway l s.away } with
          away := applyWrites wAway l'
            (replayThermostats m t { s with away := applyWrites wAway l s.away }).away }).gauges
      = (replayThermostats m t { s with away := applyWrites wAway l s.away }).gauges := by
  simp only [Metrics.gauges, Metrics.deviceFamilies, replayThermostats, List.map_cons,
    List.map_nil]
  rw [haway, hdev _ (by simp [deviceWrites]), hdev (wReading m _) (by simp [deviceWrites]),
    hdev (wReading m (·.TargetTemperatureC)) (by simp [deviceWrites]),
    hdev (wReading m (fun v => float64 v.TargetTemperatureF)) (by simp [deviceWrites]),
    hdev (wReading m (fun v => float64 v.Humidity)) (by simp [deviceWrites]),
    hdev (wReading m (fun v => hvacValue v.HvacState)) (by simp [deviceWrites]),
    hdev (wEmergency m) (by simp [deviceWrites])]

/-- Thermostats that report the same samples whenever they share a label set
never write two different values to one series. -/
theorem deviceWrites_consistent (m : Store String String) (t : List (String × Thermostat))
    (hs : ∀ a ∈ t, ∀ b ∈ t, deviceLabels m a.2 = deviceLabels m b.2 → a.2.sameSamples b.2)
    (w : String × Thermostat → Option (List String × ℚ)) (hw : w ∈ deviceWrites m) :
    ∀ x ∈ t, ∀ y ∈ t, ∀ k v v', w x = some (k, v) → w y = some (k, v') → v = v' := by
  have hr : ∀ f : Thermostat → ℚ, (∀ a b : Thermostat, a.sameSamples b → f a = f b) →
      ∀ x ∈ t, ∀ y ∈ t, ∀ k v v', wReading m f x = some (k, v) →
        wReading m f y = some (k, v') → v = v' := by
    intro f hf x hx y hy k v v' hwx hwy
    simp only [wReading, Option.some.injEq, Prod.mk.injEq] at hwx hwy
    rw [← hwx.2, ← hwy.2]
    exact hf _ _ (hs x hx y hy (hwx.1.trans hwy.1.symm))
  simp only [deviceWrites, List.mem_cons, List.mem_singleton, List.mem_nil_iff,
    or_false] at hw
  rcases hw with rfl | rfl | rfl | rfl | rfl | rfl | rfl
  · exact hr _ (fun a b h => h.1)
  · exact hr _ (fun a b h => by simp only [h.2.1])
  · exact hr _ (fun a b h => h.2.2.1)
  · exact hr _ (fun a b h => by simp only [h.2.2.2.1])
  · exact hr _ (fun a b h => by simp only [h.2.2.2.2.1])
  · exact hr _ (fun a b h => by simp only [h.2.2.2.2.2.1])
  · intro x hx y hy k v v' hwx hwy
    unfold wEmergency at hwx hwy
    by_cases hx' : x.2.HvacState = "heating" ∨ x.2.HvacState = "cooling"
    · simp [hx'] at hwx
    · by_cases hy' : y.2.HvacState = "heating" ∨ y.2.HvacState = "cooling"
      · simp [hy'] at hwy
      · rw [if_neg hx'] at hwx
        rw [if_neg hy'] at hwy
        simp only [Option.some.injEq, Prod.mk.injEq] at hwx hwy
        rw [← hwx.2, ← hwy.2, (hs x hx y hy (hwx.1.trans hwy.1.symm)).2.2.2.2.2.2]

/-- The conversion of an integer reading is exact up to magnitude 2^53. -/
theorem float64_of_natAbs_le (n : Int) (h : n.natAbs ≤ 2 ^ 53) : float64 n = (n : ℚ) := by
  unfold float64
  rw [if_pos h]

/-! ## Properties of a poll cycle -/

/-- C1, as stated, fails: two returned structures with distinct identifiers
share the display name "Home", one away and one home.  Whichever of the two
the loop visits last decides the single series at that name, so in either
visiting order one returned structure does not have its own state on the
occupancy gauge. -/
theorem away_gauge_shared_name_counterexample :
    (twoHomes.map Prod.fst).Nodup ∧
    ¬ (∀ kv ∈ twoHomes,
        (pollNest ⟨.ok twoHomes, .ok ⟨[]⟩⟩ Metrics.init).1.away [kv.2.Name]
          = some (if kv.2.Away = "away" then 1 else if kv.2.Away = "home" then 0 else 2)) ∧
    ¬ (∀ kv ∈ twoHomes.reverse,
        (pollNest ⟨.ok twoHomes.reverse, .ok ⟨[]⟩⟩ Metrics.init).1.away [kv.2.Name]
          = some (if kv.2.Away = "away" then 1 else if kv.2.Away = "home" then 0 else 2)) := by
  refine ⟨by decide, ?_, ?_⟩
  · intro h
    have h1 := h ("s1", ⟨"Home", "away"⟩) (by decide)
    revert h1
    decide
  · intro h
    have h1 := h ("s2", ⟨"Home", "home"⟩) (by decide)
    revert h1
    decide

/-- C1 (amended): in a poll cycle whose structures fetch succeeds, for every
returned structure such that the returned structures with the same display
name all map to the same occupancy value, the occupancy gauge at that display
name is, after the cycle, 1 for "away", 0 for "home" and 2 for any other state
string. -/
theorem away_gauge_of_structure (c : Client) (s : Metrics)
    (structures : List (String × Structure)) (h : c.Structures = .ok structures)
    (kv : String × Structure) (hkv : kv ∈ structures)
    (hagree : ∀ kv' ∈ structures, kv'.2.Name = kv.2.Name →
      awayValue kv'.2.Away = awayValue kv.2.Away) :
    (pollNest c s).1.away [kv.2.Name]
      = some (if kv.2.Away = "away" then 1 else if kv.2.Away = "home" then 0 else 2) := by
  rw [pollNest_away c s structures h]
  refine applyWrites_agree wAway structures s.away [kv.2.Name] _ kv hkv rfl ?_
  intro y hy v' hw
  simp only [wAway, Option.some.injEq, Prod.mk.injEq, List.cons.injEq, and_true] at hw
  rw [← hw.2]
  exact hagree y hy hw.1

/-- The occupancy gauge on three one-structure responses: home, away, and the
empty state string. -/
theorem away_gauge_of_structure_witness :
    (pollNest scenarioClient Metrics.init).1.away ["Home"] = some 0 ∧
    (pollNest ⟨.ok [("s1", ⟨"Home", "away"⟩)], .error "x"⟩ Metrics.init).1.away ["Home"]
      = some 1 ∧
    (pollNest ⟨.ok [("s1", ⟨"Home", ""⟩)], .error "x"⟩ Metrics.init).1.away ["Home"]
      = some 2 :=
  ⟨away_gauge_of_structure scenarioClient Metrics.init scenarioStructures rfl
      ("s1", ⟨"Home", "home"⟩) (by decide) (by decide),
    away_gauge_of_structure _ Metrics.init [("s1", ⟨"Home", "away"⟩)] rfl
      ("s1", ⟨"Home", "away"⟩) (by decide) (by decide),
    away_gauge_of_structure _ Metrics.init [("s1", ⟨"Home", ""⟩)] rfl
      ("s1", ⟨"Home", ""⟩) (by decide) (by decide)⟩

/-- C3: when the structures fetch fails, the error counter grows by exactly 1,
every gauge vector is exactly what it was before the cycle, and the only call
made is the structures fetch (the devices fetch is not performed). -/
theorem structures_fetch_error_cycle (c : Client) (s : Metrics) (e : String)
    (h : c.Structures = .error e) :
    (pollNest c s).1.errCount = s.errCount + 1 ∧
    (pollNest c s).1.away = s.away ∧
    (pollNest c s).1.ambientTempC = s.ambientTempC ∧
    (pollNest c s).1.ambientTempF = s.ambientTempF ∧
    (pollNest c s).1.targetTempC = s.targetTempC ∧
    (pollNest c s).1.targetTempF = s.targetTempF ∧
    (pollNest c s).1.humidity = s.humidity ∧
    (pollNest c s).1.hvacState = s.hvacState ∧
    (pollNest c s).1.emergencyHeatState = s.emergencyHeatState ∧
    (pollNest c s).2 = [Call.Structures] ∧
    Call.Devices ∉ (pollNest c s).2 := by
  rw [pollNest_structures_error c s e h]
  simp

/-- A failed structures fetch after the scenario cycle: counter from 0 to 1,
occupancy series kept, one call made. -/
theorem structures_fetch_error_cycle_witness :
    (pollNest structuresDown (pollNest scenarioClient Metrics.init).1).1.errCount = 0 + 1 ∧
    (pollNest structuresDown (pollNest scenarioClient Metrics.init).1).1.away ["Home"]
      = some 0 ∧
    (pollNest structuresDown (pollNest scenarioClient Metrics.init).1).2 = [Call.Structures] :=
  have h := structures_fetch_error_cycle structuresDown
    (pollNest scenarioClient Metrics.init).1 "unreachable" rfl
  ⟨h.1, by rw [h.2.1]; decide, h.2.2.2.2.2.2.2.2.2.1⟩

/-- C4: when the structures fetch succeeds and the devices fetch fails, the
error counter grows by exactly 1, the occupancy gauge is the pre-cycle one
overwritten, structure by structure in visiting order, with the away/home/other
value at the structure's display name, and the seven device gauge vectors are
exactly what they were before the cycle. -/
theorem devices_fetch_error_cycle (c : Client) (s : Metrics)
    (structures : List (String × Structure)) (e : String)
    (h : c.Structures = .ok structures) (hd : c.Devices = .error e) :
    (pollNest c s).1.errCount = s.errCount + 1 ∧
    (pollNest c s).1.away
      = structures.foldl (fun g kv => g.set [kv.2.Name] (awayValue kv.2.Away)) s.away ∧
    (∀ name, (∀ kv ∈ structures, kv.2.Name ≠ name) →
      (pollNest c s).1.away [name] = s.away [name]) ∧
    (pollNest c s).1.ambientTempC = s.ambientTempC ∧
    (pollNest c s).1.ambientTempF = s.ambientTempF ∧
    (pollNest c s).1.targetTempC = s.targetTempC ∧
    (pollNest c s).1.targetTempF = s.targetTempF ∧
    (pollNest c s).1.humidity = s.humidity ∧
    (pollNest c s).1.hvacState = s.hvacState ∧
    (pollNest c s).1.emergencyHeatState = s.emergencyHeatState := by
  rw [pollNest_devices_error c s structures e h hd]
  refine ⟨rfl, rfl, ?_, rfl, rfl, rfl, rfl, rfl, rfl, rfl⟩
  intro name hname
  refine applyWrites_untouched wAway structures s.away [name] ?_
  intro x hx v hw
  simp only [wAway, Option.some.injEq, Prod.mk.injEq, List.cons.injEq, and_true] at hw
  exact hname x hx hw.1

/-- A failed devices fetch on the initial state: counter at 1, occupancy
written, no device series created. -/
theorem devices_fetch_error_cycle_witness :
    (pollNest devicesDown Metrics.init).1.errCount = 0 + 1 ∧
    (pollNest devicesDown Metrics.init).1.away ["Home"] = some 0 ∧
    (pollNest devicesDown Metrics.init).1.ambientTempC ["Home", "Hallway"] = none :=
  have h := devices_fetch_error_cycle devicesDown Metrics.init scenarioStructures
    "unreachable" rfl rfl
  ⟨h.1, by rw [h.2.1]; decide, by rw [h.2.2.2.1]; decide⟩

/-- C2, as stated, fails: two returned thermostats of the structure "Home"
are both named "Hallway", one heating and one cooling.  They share one label
set, so in either visiting order one of them does not have its own state on the
HVAC gauge. -/
theorem hvac_gauge_shared_labels_counterexample :
    (heatingAndCooling.map Prod.fst).Nodup ∧
    ¬ (∀ kv ∈ heatingAndCooling,
        (pollNest ⟨.ok scenarioStructures, .ok ⟨heatingAndCooling⟩⟩ Metrics.init).1.hvacState
            ["Home", kv.2.Name]
          = some (if kv.2.HvacState = "heating" then 1
              else if kv.2.HvacState = "cooling" then -1 else 0)) ∧
    ¬ (∀ kv ∈ heatingAndCooling.reverse,
        (pollNest ⟨.ok scenarioStructures, .ok ⟨heatingAndCooling.reverse⟩⟩
            Metrics.init).1.hvacState ["Home", kv.2.Name]
          = some (if kv.2.HvacState = "heating" then 1
              else if kv.2.HvacState = "cooling" then -1 else 0)) := by
  refine ⟨by decide, ?_, ?_⟩
  · intro h
    have h1 := h ("t1", ⟨"s1", "Hallway", 21, 70, 22, 72, 40, "heating", false⟩) (by decide)
    revert h1
    decide
  · intro h
    have h1 := h ("t2", ⟨"s1", "Hallway", 21, 70, 22, 72, 40, "cooling", false⟩) (by decide)
    revert h1
    decide

/-- C2 (amended): in a poll cycle in which both fetches succeed, for every
returned thermostat such that the returned thermostats with the same label set
all map to the same HVAC value, the HVAC gauge at that label set is, after the
cycle, 1 for "heating", -1 for "cooling" and 0 for any other state string. -/
theorem hvac_gauge_of_thermostat (c : Client) (s : Metrics)
    (structures : List (String × Structure)) (devices : Devices)
    (h : c.Structures = .ok structures) (hd : c.Devices = .ok devices)
    (kv : String × Thermostat) (hkv : kv ∈ devices.Thermostats)
    (hagree : ∀ kv' ∈ devices.Thermostats,
      labelsOf structures kv'.2 = labelsOf structures kv.2 →
      hvacValue kv'.2.HvacState = hvacValue kv.2.HvacState) :
    (pollNest c s).1.hvacState (labelsOf structures kv.2)
      = some (if kv.2.HvacState = "heating" then 1
          else if kv.2.HvacState = "cooling" then -1 else 0) := by
  rw [pollNest_ok c s structures devices h hd]
  exact wReading_agree (structureIDToName structures) (fun v => hvacValue v.HvacState)
    devices.Thermostats _ kv hkv hagree

/-- The HVAC gauge in the scenario: the heating thermostat reads 1. -/
theorem hvac_gauge_of_thermostat_witness :
    (pollNest scenarioClient Metrics.init).1.hvacState ["Home", "Hallway"] = some 1 :=
  hvac_gauge_of_thermostat scenarioClient Metrics.init scenarioStructures
    ⟨scenarioThermostats⟩ rfl rfl
    ("t1", ⟨"s1", "Hallway", 21, 70, 22, 72, 40, "heating", false⟩) (by decide) (by decide)

/-- C5, as stated, fails: a heating thermostat shares its label set with an
idle one in the same response.  The idle one writes the emergency-heat gauge at
that label set, so the series, absent before the cycle, holds 0 after it, in
either visiting order. -/
theorem emergency_heat_shared_labels_counterexample :
    (heatingAndIdle.map Prod.fst).Nodup ∧
    ¬ (∀ kv ∈ heatingAndIdle, kv.2.HvacState = "heating" ∨ kv.2.HvacState = "cooling" →
        (pollNest ⟨.ok scenarioStructures, .ok ⟨heatingAndIdle⟩⟩
            Metrics.init).1.emergencyHeatState ["Home", kv.2.Name]
          = Metrics.init.emergencyHeatState ["Home", kv.2.Name]) ∧
    ¬ (∀ kv ∈ heatingAndIdle.reverse,
        kv.2.HvacState = "heating" ∨ kv.2.HvacState = "cooling" →
        (pollNest ⟨.ok scenarioStructures, .ok ⟨heatingAndIdle.reverse⟩⟩
            Metrics.init).1.emergencyHeatState ["Home", kv.2.Name]
          = Metrics.init.emergencyHeatState ["Home", kv.2.Name]) := by
  refine ⟨by decide, ?_, ?_⟩
  · intro h
    have h1 := h ("t1", ⟨"s1", "Hallway", 21, 70, 22, 72, 40, "heating", true⟩) (by decide)
      (by decide)
    revert h1
    decide
  · intro h
    have h1 := h ("t1", ⟨"s1", "Hallway", 21, 70, 22, 72, 40, "heating", true⟩) (by decide)
      (by decide)
    revert h1
    decide

/-- C5 (amended): in a poll cycle in which both fetches succeed, for every
returned thermostat that is heating or cooling and such that every other
returned thermostat with the same label set is heating or cooling too, the
emergency-heat gauge at that label set is after the cycle what it was before
(absent if it was absent), whatever the emergency-heat flags. -/
theorem emergency_heat_untouched_when_active (c : Client) (s : Metrics)
    (structures : List (String × Structure)) (devices : Devices)
    (h : c.Structures = .ok structures) (hd : c.Devices = .ok devices)
    (kv : String × Thermostat) (hkv : kv ∈ devices.Thermostats)
    (hactive : kv.2.HvacState = "heating" ∨ kv.2.HvacState = "cooling")
    (hothers : ∀ kv' ∈ devices.Thermostats, kv' ≠ kv →
      labelsOf structures kv'.2 = labelsOf structures kv.2 →
      kv'.2.HvacState = "heating" ∨ kv'.2.HvacState = "cooling") :
    (pollNest c s).1.emergencyHeatState (labelsOf structures kv.2)
      = s.emergencyHeatState (labelsOf structures kv.2) := by
  have _ := hkv
  rw [pollNest_ok c s structures devices h hd]
  refine applyWrites_untouched (wEmergency (structureIDToName structures))
    devices.Thermostats s.emergencyHeatState _ ?_
  intro x hx v hw
  unfold wEmergency at hw
  by_cases hx' : x.2.HvacState = "heating" ∨ x.2.HvacState = "cooling"
  · simp [hx'] at hw
  · rw [if_neg hx'] at hw
    simp only [Option.some.injEq, Prod.mk.injEq] at hw
    by_cases hxkv : x = kv
    · exact hx' (hxkv ▸ hactive)
    · exact hx' (hothers x hx hxkv hw.1)

/-- The emergency-heat gauge in the scenario: still absent after the cycle. -/
theorem emergency_heat_untouched_when_active_witness :
    (pollNest scenarioClient Metrics.init).1.emergencyHeatState ["Home", "Hallway"] = none :=
  emergency_heat_untouched_when_active scenarioClient Metrics.init scenarioStructures
    ⟨scenarioThermostats⟩ rfl rfl
    ("t1", ⟨"s1", "Hallway", 21, 70, 22, 72, 40, "heating", false⟩) (by decide) (by decide)
    (by decide)

/-- C6, as stated, fails: two idle thermostats share one label set and differ
in their emergency-heat flag, so in either visiting order one of them does not
have its own flag on the emergency-heat gauge. -/
theorem emergency_heat_flags_counterexample :
    (idleFlagsDiffer.map Prod.fst).Nodup ∧
    ¬ (∀ kv ∈ idleFlagsDiffer,
        ¬ (kv.2.HvacState = "heating" ∨ kv.2.HvacState = "cooling") →
        (pollNest ⟨.ok scenarioStructures, .ok ⟨idleFlagsDiffer⟩⟩
            Metrics.init).1.emergencyHeatState ["Home", kv.2.Name]
          = some (if kv.2.IsUsingEmergencyHeat = true then 1 else 0)) ∧
    ¬ (∀ kv ∈ idleFlagsDiffer.reverse,
        ¬ (kv.2.HvacState = "heating" ∨ kv.2.HvacState = "cooling") →
        (pollNest ⟨.ok scenarioStructures, .ok ⟨idleFlagsDiffer.reverse⟩⟩
            Metrics.init).1.emergencyHeatState ["Home", kv.2.Name]
          = some (if kv.2.IsUsingEmergencyHeat = true then 1 else 0)) := by
  refine ⟨by decide, ?_, ?_⟩
  · intro h
    have h1 := h ("t1", ⟨"s1", "Hallway", 21, 70, 22, 72, 40, "off", true⟩) (by decide)
      (by decide)
    revert h1
    decide
  · intro h
    have h1 := h ("t2", ⟨"s1", "Hallway", 21, 70, 22, 72, 40, "off", false⟩) (by decide)
      (by decide)
    revert h1
    decide

/-- C6 (amended): in a poll cycle in which both fetches succeed, for every
returned thermostat that is neither heating nor cooling and such that the
returned thermostats with the same label set that are neither heating nor
cooling have the same emergency-heat flag, the emergency-heat gauge at that
label set is, after the cycle, 1 when the flag is set and 0 otherwise. -/
theorem emergency_heat_gauge_when_idle (c : Client) (s : Metrics)
    (structures : List (String × Structure)) (devices : Devices)
    (h : c.Structures = .ok structures) (hd : c.Devices = .ok devices)
    (kv : String × Thermostat) (hkv : kv ∈ devices.Thermostats)
    (hidle : ¬ (kv.2.HvacState = "heating" ∨ kv.2.HvacState = "cooling"))
    (hagree : ∀ kv' ∈ devices.Thermostats,
      labelsOf structures kv'.2 = labelsOf structures kv.2 →
      ¬ (kv'.2.HvacState = "heating" ∨ kv'.2.HvacState = "cooling") →
      kv'.2.IsUsingEmergencyHeat = kv.2.IsUsingEmergencyHeat) :
    (pollNest c s).1.emergencyHeatState (labelsOf structures kv.2)
      = some (if kv.2.IsUsingEmergencyHeat = true then 1 else 0) := by
  rw [pollNest_ok c s structures devices h hd]
  refine applyWrites_agree (wEmergency (structureIDToName structures))
    devices.Thermostats s.emergencyHeatState _ _ kv hkv ?_ ?_
  · unfold wEmergency
    rw [if_neg hidle]
    rfl
  · intro y hy v' hw
    unfold wEmergency at hw
    by_cases hy' : y.2.HvacState = "heating" ∨ y.2.HvacState = "cooling"
    · simp [hy'] at hw
    · rw [if_neg hy'] at hw
      simp only [Option.some.injEq, Prod.mk.injEq] at hw
      rw [← hw.2, hagree y hy hw.1 hy']
      rfl

/-- An idle thermostat with the flag set puts the emergency-heat gauge at 1. -/
theorem emergency_heat_gauge_when_idle_witness :
    (pollNest ⟨.ok scenarioStructures,
        .ok ⟨[("t1", ⟨"s1", "Hallway", 21, 70, 22, 72, 40, "off", true⟩)]⟩⟩
        Metrics.init).1.emergencyHeatState ["Home", "Hallway"] = some 1 :=
  emergency_heat_gauge_when_idle _ Metrics.init scenarioStructures
    ⟨[("t1", ⟨"s1", "Hallway", 21, 70, 22, 72, 40, "off", true⟩)]⟩ rfl rfl
    ("t1", ⟨"s1", "Hallway", 21, 70, 22, 72, 40, "off", true⟩) (by decide) (by decide)
    (by decide)

/-- C7, as stated, fails in two ways.  Two returned thermostats of the
structure "Home" are both named "Hallway" and report different readings: they
share one label set, so in either visiting order one of them does not have its
own ambient Celsius reading on the gauge.  And a single thermostat whose
ambient Fahrenheit reading is 2^53 + 1 has the gauge at 2^53, the nearest
float64, not at its reported value. -/
theorem readings_counterexample :
    (scenarioStructures.map Prod.fst).Nodup ∧ (readingsDiffer.map Prod.fst).Nodup ∧
    ¬ (∀ kv ∈ readingsDiffer,
        (pollNest ⟨.ok scenarioStructures, .ok ⟨readingsDiffer⟩⟩ Metrics.init).1.ambientTempC
            [displayName scenarioStructures kv.2.StructureID, kv.2.Name]
          = some kv.2.AmbientTemperatureC) ∧
    ¬ (∀ kv ∈ readingsDiffer.reverse,
        (pollNest ⟨.ok scenarioStructures, .ok ⟨readingsDiffer.reverse⟩⟩
            Metrics.init).1.ambientTempC
            [displayName scenarioStructures kv.2.StructureID, kv.2.Name]
          = some kv.2.AmbientTemperatureC) ∧
    (pollNest ⟨.ok scenarioStructures, .ok ⟨hugeReading⟩⟩ Metrics.init).1.ambientTempF
        ["Home", "Hallway"] = some 9007199254740992 ∧
    ¬ (∀ kv ∈ hugeReading,
        (pollNest ⟨.ok scenarioStructures, .ok ⟨hugeReading⟩⟩ Metrics.init).1.ambientTempF
            [displayName scenarioStructures kv.2.StructureID, kv.2.Name]
          = some (kv.2.AmbientTemperatureF : ℚ)) := by
  refine ⟨by decide, by decide, ?_, ?_, by decide, ?_⟩
  · intro h
    have h1 := h ("t1", ⟨"s1", "Hallway", 21, 70, 22, 72, 40, "heating", false⟩) (by decide)
    revert h1
    decide
  · intro h
    have h1 := h ("t2", ⟨"s1", "Hallway", 19, 66, 20, 68, 45, "heating", false⟩) (by decide)
    revert h1
    decide
  · intro h
    have h1 := h ("t1", ⟨"s1", "Hallway", 21, 9007199254740993, 22, 72, 40, "heating", false⟩)
      (by decide)
    revert h1
    decide

/-- C7 (amended): in a poll cycle in which both fetches succeed (the structures
response being a map, its identifiers are distinct), the label set of a
returned thermostat d is [n, d.Name] where n is the display name this cycle's
structures response gives for d.StructureID: the name of the entry with that
identifier, the empty string when there is none, and in no case anything taken
from the metric state before the cycle.  For each of the five readings
separately: if the returned thermostats with the same label set report the
same value of that reading, then after the cycle the gauge of that reading at
that label set holds d's own value of it converted to float64, which is the
value itself for the two Celsius readings and for an integer reading
(ambient Fahrenheit, target Fahrenheit, humidity) of magnitude at most 2^53. -/
theorem device_labels_and_readings (c : Client) (s : Metrics)
    (structures : List (String × Structure)) (devices : Devices)
    (h : c.Structures = .ok structures) (hd : c.Devices = .ok devices)
    (hk : (structures.map Prod.fst).Nodup)
    (kv : String × Thermostat) (hkv : kv ∈ devices.Thermostats) :
    deviceLabels (structures.foldl structureBody (Store.empty, s)).1 kv.2
      = [displayName structures kv.2.StructureID, kv.2.Name] ∧
    (∀ st, (kv.2.StructureID, st) ∈ structures →
      displayName structures kv.2.StructureID = st.Name) ∧
    ((∀ st, (kv.2.StructureID, st) ∉ structures) →
      displayName structures kv.2.StructureID = "") ∧
    ((∀ kv' ∈ devices.Thermostats,
        displayName structures kv'.2.StructureID = displayName structures kv.2.StructureID →
        kv'.2.Name = kv.2.Name → kv'.2.AmbientTemperatureC = kv.2.AmbientTemperatureC) →
      (pollNest c s).1.ambientTempC [displayName structures kv.2.StructureID, kv.2.Name]
        = some kv.2.AmbientTemperatureC) ∧
    ((∀ kv' ∈ devices.Thermostats,
        displayName structures kv'.2.StructureID = displayName structures kv.2.StructureID →
        kv'.2.Name = kv.2.Name → kv'.2.AmbientTemperatureF = kv.2.AmbientTemperatureF) →
      (pollNest c s).1.ambientTempF [displayName structures kv.2.StructureID, kv.2.Name]
          = some (float64 kv.2.AmbientTemperatureF) ∧
        (kv.2.AmbientTemperatureF.natAbs ≤ 2 ^ 53 →
          (pollNest c s).1.ambientTempF [displayName structures kv.2.StructureID, kv.2.Name]
            = some (kv.2.AmbientTemperatureF : ℚ))) ∧
    ((∀ kv' ∈ devices.Thermostats,
        displayName structures kv'.2.StructureID = displayName structures kv.2.StructureID →
        kv'.2.Name = kv.2.Name → kv'.2.TargetTemperatureC = kv.2.TargetTemperatureC) →
      (pollNest c s).1.targetTempC [displayName structures kv.2.StructureID, kv.2.Name]
        = some kv.2.TargetTemperatureC) ∧
    ((∀ kv' ∈ devices.Thermostats,
        displayName structures kv'.2.StructureID = displayName structures kv.2.StructureID →
        kv'.2.Name = kv.2.Name → kv'.2.TargetTemperatureF = kv.2.TargetTemperatureF) →
      (pollNest c s).1.targetTempF [displayName structures kv.2.StructureID, kv.2.Name]
          = some (float64 kv.2.TargetTemperatureF) ∧
        (kv.2.TargetTemperatureF.natAbs ≤ 2 ^ 53 →
          (pollNest c s).1.targetTempF [displayName structures kv.2.StructureID, kv.2.Name]
            = some (kv.2.TargetTemperatureF : ℚ))) ∧
    ((∀ kv' ∈ devices.Thermostats,
        displayName structures kv'.2.StructureID = displayName structures kv.2.StructureID →
        kv'.2.Name = kv.2.Name → kv'.2.Humidity = kv.2.Humidity) →
      (pollNest c s).1.humidity [displayName structures kv.2.StructureID, kv.2.Name]
          = some (float64 kv.2.Humidity) ∧
        (kv.2.Humidity.natAbs ≤ 2 ^ 53 →
          (pollNest c s).1.humidity [displayName structures kv.2.StructureID, kv.2.Name]
            = some (kv.2.Humidity : ℚ))) := by
  have hl : ∀ v : Thermostat, deviceLabels (structureIDToName structures) v
      = [displayName structures v.StructureID, v.Name] := labelsOf_eq structures hk
  have hag : ∀ (β : Type) (g : Thermostat → β),
      (∀ kv' ∈ devices.Thermostats,
        displayName structures kv'.2.StructureID = displayName structures kv.2.StructureID →
        kv'.2.Name = kv.2.Name → g kv'.2 = g kv.2) →
      ∀ kv' ∈ devices.Thermostats,
        deviceLabels (structureIDToName structures) kv'.2
          = deviceLabels (structureIDToName structures) kv.2 → g kv'.2 = g kv.2 := by
    intro β g hg kv' hkv' hlab
    rw [hl, hl] at hlab
    simp only [List.cons.injEq, and_true] at hlab
    exact hg kv' hkv' hlab.1 hlab.2
  have hint : ∀ (g : Thermostat → Int) (G : GaugeVec),
      G (deviceLabels (structureIDToName structures) kv.2) = some (float64 (g kv.2)) →
      G (deviceLabels (structureIDToName structures) kv.2) = some (float64 (g kv.2)) ∧
        ((g kv.2).natAbs ≤ 2 ^ 53 →
          G (deviceLabels (structureIDToName structures) kv.2) = some ((g kv.2 : Int) : ℚ)) := by
    intro g G hG
    refine ⟨hG, fun hb => ?_⟩
    rw [hG, float64_of_natAbs_le _ hb]
  rw [pollNest_ok c s structures devices h hd, ← hl kv.2]
  refine ⟨?_, ?_, ?_, ?_, ?_, ?_, ?_, ?_⟩
  · rw [structures_foldl]
    rfl
  · intro st hst
    rw [← structureIDToName_index structures hk]
    exact structureIDToName_index_of_mem structures hk _ st hst
  · intro hst
    rw [← structureIDToName_index structures hk]
    exact structureIDToName_index_of_not_mem structures _ hst
  · intro hg
    exact wReading_agree _ (·.AmbientTemperatureC) devices.Thermostats _ kv hkv
      (hag ℚ (·.AmbientTemperatureC) hg)
  · intro hg
    exact hint (·.AmbientTemperatureF) _
      (wReading_agree _ (fun v => float64 v.AmbientTemperatureF) devices.Thermostats _ kv hkv
        (fun kv' hkv' hlab => by
          simp only [hag Int (·.AmbientTemperatureF) hg kv' hkv' hlab]))
  · intro hg
    exact wReading_agree _ (·.TargetTemperatureC) devices.Thermostats _ kv hkv
      (hag ℚ (·.TargetTemperatureC) hg)
  · intro hg
    exact hint (·.TargetTemperatureF) _
      (wReading_agree _ (fun v => float64 v.TargetTemperatureF) devices.Thermostats _ kv hkv
        (fun kv' hkv' hlab => by
          simp only [hag Int (·.TargetTemperatureF) hg kv' hkv' hlab]))
  · intro hg
    exact hint (·.Humidity) _
      (wReading_agree _ (fun v => float64 v.Humidity) devices.Thermostats _ kv hkv
        (fun kv' hkv' hlab => by
          simp only [hag Int (·.Humidity) hg kv' hkv' hlab]))

/-- The scenario of the specification, from the initial state: every value it
lists, and the emergency-heat series still absent. -/
theorem device_labels_and_readings_witness :
    (pollNest scenarioClient Metrics.init).1.away ["Home"] = some 0 ∧
    (pollNest scenarioClient Metrics.init).1.ambientTempC ["Home", "Hallway"] = some 21 ∧
    (pollNest scenarioClient Metrics.init).1.ambientTempF ["Home", "Hallway"] = some 70 ∧
    (pollNest scenarioClient Metrics.init).1.targetTempC ["Home", "Hallway"] = some 22 ∧
    (pollNest scenarioClient Metrics.init).1.targetTempF ["Home", "Hallway"] = some 72 ∧
    (pollNest scenarioClient Metrics.init).1.humidity ["Home", "Hallway"] = some 40 ∧
    (pollNest scenarioClient Metrics.init).1.hvacState ["Home", "Hallway"] = some 1 ∧
    (pollNest scenarioClient Metrics.init).1.emergencyHeatState ["Home", "Hallway"] = none :=
  have h := device_labels_and_readings scenarioClient Metrics.init scenarioStructures
    ⟨scenarioThermostats⟩ rfl rfl (by decide)
    ("t1", ⟨"s1", "Hallway", 21, 70, 22, 72, 40, "heating", false⟩) (by decide)
  ⟨by decide, h.2.2.2.1 (by decide), (h.2.2.2.2.1 (by decide)).2 (by decide),
    h.2.2.2.2.2.1 (by decide), (h.2.2.2.2.2.2.1 (by decide)).2 (by decide),
    (h.2.2.2.2.2.2.2 (by decide)).2 (by decide), by decide, by decide⟩

/-- C8: a poll cycle leaves the error counter at its prior value plus the
number of fetch calls it made that failed: plus 1 when the structures fetch
fails, plus 1 when the structures fetch succeeds and the devices fetch fails,
plus 0 when both succeed.  Hence over any sequence of cycles the counter never
decreases, and each further cycle raises it by at most 1. -/
theorem errCount_accounting (c : Client) (s : Metrics) :
    (pollNest c s).1.errCount
      = s.errCount + (((pollNest c s).2.filter c.fails).length : ℚ) ∧
    (∀ e, c.Structures = .error e → (pollNest c s).1.errCount = s.errCount + 1) ∧
    (∀ l e, c.Structures = .ok l → c.Devices = .error e →
      (pollNest c s).1.errCount = s.errCount + 1) ∧
    (∀ l d, c.Structures = .ok l → c.Devices = .ok d →
      (pollNest c s).1.errCount = s.errCount) ∧
    (∀ cycles more : List Client,
      (pollLoop cycles s).errCount ≤ (pollLoop (cycles ++ more) s).errCount) ∧
    (∀ (cycles : List Client) (next : Client),
      (pollLoop (cycles ++ [next]) s).errCount ≤ (pollLoop cycles s).errCount + 1) := by
  refine ⟨?_, ?_, ?_, ?_, ?_, ?_⟩
  · cases h : c.Structures with
    | error e =>
      rw [pollNest_structures_error c s e h]
      simp [Client.fails, h]
    | ok l =>
      cases hd : c.Devices with
      | error e =>
        rw [pollNest_devices_error c s l e h hd]
        simp [Client.fails, h, hd]
      | ok d =>
        rw [pollNest_ok c s l d h hd]
        simp [Client.fails, h, hd, replayThermostats]
  · intro e h
    rw [pollNest_structures_error c s e h]
  · intro l e h hd
    rw [pollNest_devices_error c s l e h hd]
  · intro l d h hd
    rw [pollNest_ok c s l d h hd]
    rfl
  · intro cycles more
    rw [pollLoop_append]
    exact (pollLoop_errCount_bounds more _).1
  · intro cycles next
    rw [pollLoop_append]
    exact (pollNest_errCount_bounds next _).2

/-- The counter on the three kinds of cycle, and along a run of three cycles. -/
theorem errCount_accounting_witness :
    (pollNest structuresDown Metrics.init).1.errCount = 0 + 1 ∧
    (pollNest devicesDown Metrics.init).1.errCount = 0 + 1 ∧
    (pollNest scenarioClient Metrics.init).1.errCount = 0 ∧
    (pollLoop [structuresDown, scenarioClient] Metrics.init).errCount
      ≤ (pollLoop ([structuresDown, scenarioClient] ++ [devicesDown]) Metrics.init).errCount :=
  ⟨(errCount_accounting structuresDown Metrics.init).2.1 "unreachable" rfl,
    (errCount_accounting devicesDown Metrics.init).2.2.1 scenarioStructures "unreachable"
      rfl rfl,
    (errCount_accounting scenarioClient Metrics.init).2.2.2.1 scenarioStructures
      ⟨scenarioThermostats⟩ rfl rfl,
    (errCount_accounting scenarioClient Metrics.init).2.2.2.2.1
      [structuresDown, scenarioClient] [devicesDown]⟩

/-- C9: whatever the outcome of the two fetches, every series that exists
before a poll cycle exists after it, an occupancy series whose label set is
not the display name of a structure returned in the cycle keeps its value, and
a series of any of the seven device gauge vectors whose label set is not the
label set of a thermostat returned in the cycle keeps its value.  So a series
of a structure or device that is no longer in the response is neither deleted
nor changed. -/
theorem series_persist (c : Client) (s : Metrics) :
    (∀ k, (s.away k).isSome → ((pollNest c s).1.away k).isSome) ∧
    (∀ k, (∀ kv ∈ c.returnedStructures, [kv.2.Name] ≠ k) →
      (pollNest c s).1.away k = s.away k) ∧
    (∀ f ∈ Metrics.deviceFamilies,
      (∀ k, (f s k).isSome → (f (pollNest c s).1 k).isSome) ∧
      (∀ k, (∀ kv ∈ c.returnedThermostats, labelsOf c.returnedStructures kv.2 ≠ k) →
        f (pollNest c s).1 k = f s k)) := by
  cases h : c.Structures with
  | error e =>
    have hpost : (pollNest c s).1 = { s with errCount := s.errCount + 1 } := by
      rw [pollNest_structures_error c s e h]
    rw [hpost]
    refine ⟨fun k hk => hk, fun k _ => rfl, ?_⟩
    intro f hf
    obtain ⟨w, _, _, _, hw⟩ := deviceFamilies_replay Store.empty f hf
    have hfs : f { s with errCount := s.errCount + 1 } = f s := hw s _
    rw [hfs]
    exact ⟨fun k hk => hk, fun k _ => rfl⟩
  | ok l =>
    have hrs : c.returnedStructures = l := by simp [Client.returnedStructures, h]
    have haway : ∀ k, (∀ kv ∈ l, [kv.2.Name] ≠ k) → applyWrites wAway l s.away k = s.away k := by
      intro k hk
      refine applyWrites_untouched wAway l s.away k ?_
      intro x hx v hw
      simp only [wAway, Option.some.injEq, Prod.mk.injEq] at hw
      exact hk x hx hw.1
    rw [hrs]
    refine ⟨?_, ?_, ?_⟩
    · intro k hk
      rw [pollNest_away c s l h]
      exact applyWrites_isSome wAway l s.away k hk
    · intro k hk
      rw [pollNest_away c s l h]
      exact haway k hk
    · intro f hf
      obtain ⟨w, hlab, hrep, hfa, hfe⟩ := deviceFamilies_replay (structureIDToName l) f hf
      cases hd : c.Devices with
      | error e =>
        have hpost : f (pollNest c s).1 = f s := by
          rw [pollNest_devices_error c s l e h hd]
          exact (hfa { s with errCount := s.errCount + 1 } _).trans (hfe s _)
        rw [hpost]
        exact ⟨fun k hk => hk, fun k _ => rfl⟩
      | ok d =>
        have hrt : c.returnedThermostats = d.Thermostats := by
          simp [Client.returnedThermostats, h, hd]
        have hpost : f (pollNest c s).1 = applyWrites w d.Thermostats (f s) := by
          rw [pollNest_ok c s l d h hd]
          exact (hrep d.Thermostats _).trans (by rw [hfa])
        rw [hpost, hrt]
        refine ⟨fun k hk => applyWrites_isSome w d.Thermostats (f s) k hk, ?_⟩
        intro k hk
        refine applyWrites_untouched w d.Thermostats (f s) k ?_
        intro x hx v hw
        exact hk x hx (hlab x k v hw).symm

/-- After the scenario cycle, a cycle whose responses are empty keeps the
series of the structure and of the thermostat that disappeared. -/
theorem series_persist_witness :
    (pollNest ⟨.ok [], .ok ⟨[]⟩⟩ (pollNest scenarioClient Metrics.init).1).1.away ["Home"]
      = some 0 ∧
    (pollNest ⟨.ok [], .ok ⟨[]⟩⟩ (pollNest scenarioClient Metrics.init).1).1.ambientTempC
      ["Home", "Hallway"] = some 21 :=
  have h := series_persist ⟨.ok [], .ok ⟨[]⟩⟩ (pollNest scenarioClient Metrics.init).1
  ⟨(h.2.1 ["Home"] (by decide)).trans (by decide),
    ((h.2.2 Metrics.ambientTempC (by simp [Metrics.deviceFamilies])).2 ["Home", "Hallway"]
      (by decide)).trans (by decide)⟩

/-- C10, as stated, fails: a structures response holds two structures with
distinct identifiers and the display name "Cabin", one home and one away.  The
response is a Go map, visited in an unspecified order: a first cycle that
visits it as a, b leaves the occupancy gauge at "Cabin" at 1, and a second
cycle on the identical response that visits it as b, a leaves it at 0. -/
theorem idempotence_visiting_order_counterexample :
    cabinsFirstVisit.Perm cabinsSecondVisit ∧
    (cabinsFirstVisit.map Prod.fst).Nodup ∧
    (pollNest ⟨.ok cabinsFirstVisit, .ok ⟨[]⟩⟩ Metrics.init).1.away ["Cabin"] = some 1 ∧
    (pollNest ⟨.ok cabinsSecondVisit, .ok ⟨[]⟩⟩
        (pollNest ⟨.ok cabinsFirstVisit, .ok ⟨[]⟩⟩ Metrics.init).1).1.away ["Cabin"]
      = some 0 ∧
    (pollNest ⟨.ok cabinsSecondVisit, .ok ⟨[]⟩⟩
        (pollNest ⟨.ok cabinsFirstVisit, .ok ⟨[]⟩⟩ Metrics.init).1).1.gauges
      ≠ (pollNest ⟨.ok cabinsFirstVisit, .ok ⟨[]⟩⟩ Metrics.init).1.gauges := by
  refine ⟨List.Perm.swap _ _ _, by decide, by decide, by decide, ?_⟩
  intro h
  have h1 := congrArg (fun g => (g.head?.map (fun v => v ["Cabin"]))) h
  revert h1
  decide

/-- C10 (amended): running the poll cycle a second time on the same
responses, visited in the same order, leaves every gauge vector exactly as the
first run left it, whatever the responses; the same holds when the second run
visits the same two response maps in any other order, provided structures
that share a display name map to the same occupancy value and thermostats that
share a label set report the same samples.  The error counter is the one
metric that accumulates: two successful runs leave it unchanged, and two runs
on a failing response raise it by 1 each. -/
theorem pollNest_idempotent (s : Metrics) :
    (∀ c : Client, (pollNest c (pollNest c s).1).1.gauges = (pollNest c s).1.gauges) ∧
    (∀ (structures structures' : List (String × Structure))
        (thermostats thermostats' : List (String × Thermostat)),
      structures.Perm structures' → thermostats.Perm thermostats' →
      (structures.map Prod.fst).Nodup →
      (∀ a ∈ structures, ∀ b ∈ structures, a.2.Name = b.2.Name →
        awayValue a.2.Away = awayValue b.2.Away) →
      (∀ a ∈ thermostats, ∀ b ∈ thermostats,
        labelsOf structures a.2 = labelsOf structures b.2 → a.2.sameSamples b.2) →
      (pollNest ⟨.ok structures', .ok ⟨thermostats'⟩⟩
          (pollNest ⟨.ok structures, .ok ⟨thermostats⟩⟩ s).1).1.gauges
        = (pollNest ⟨.ok structures, .ok ⟨thermostats⟩⟩ s).1.gauges) ∧
    (∀ c : Client, c.fails Call.Structures = false → c.fails Call.Devices = false →
      (pollNest c (pollNest c s).1).1.errCount = s.errCount) ∧
    (∀ c : Client, c.fails Call.Structures = true ∨ c.fails Call.Devices = true →
      (pollNest c s).1.errCount = s.errCount + 1 ∧
      (pollNest c (pollNest c s).1).1.errCount = s.errCount + 2) := by
  refine ⟨?_, ?_, ?_, ?_⟩
  · intro c
    cases h : c.Structures with
    | error e =>
      rw [pollNest_structures_error c _ e h, pollNest_structures_error c s e h]
      rfl
    | ok l =>
      cases hd : c.Devices with
      | error e =>
        rw [pollNest_devices_error c _ l e h hd, pollNest_devices_error c s l e h hd]
        simp only [Metrics.gauges, Metrics.deviceFamilies, List.map_cons, List.map_nil]
        rw [applyWrites_idem]
      | ok d =>
        rw [pollNest_ok c _ l d h hd, pollNest_ok c s l d h hd]
        exact gauges_replay_twice (structureIDToName l) l l d.Thermostats d.Thermostats s
          (applyWrites_idem wAway l s.away) (fun w _ g => applyWrites_idem w d.Thermostats g)
  · intro structures structures' thermostats thermostats' hp hpt hk hs ht
    rw [pollNest_ok _ _ structures' ⟨thermostats'⟩ rfl rfl,
      pollNest_ok _ s structures ⟨thermostats⟩ rfl rfl,
      ← structureIDToName_perm structures structures' hp hk]
    refine gauges_replay_twice (structureIDToName structures) structures structures'
      thermostats thermostats' s ?_ ?_
    · refine applyWrites_perm_idem wAway structures structures' s.away hp ?_
      intro x hx y hy k v v' hwx hwy
      simp only [wAway, Option.some.injEq, Prod.mk.injEq] at hwx hwy
      rw [← hwx.2, ← hwy.2]
      have hn : [x.2.Name] = [y.2.Name] := hwx.1.trans hwy.1.symm
      simp only [List.cons.injEq, and_true] at hn
      exact hs x hx y hy hn
    · intro w hw g
      exact applyWrites_perm_idem w thermostats thermostats' g hpt
        (deviceWrites_consistent (structureIDToName structures) thermostats ht w hw)
  · intro c hcs hcd
    cases h : c.Structures with
    | error e => simp [Client.fails, h] at hcs
    | ok l =>
      cases hd : c.Devices with
      | error e => simp [Client.fails, hd] at hcd
      | ok d =>
        rw [pollNest_ok c _ l d h hd, pollNest_ok c s l d h hd]
        rfl
  · intro c hc
    cases h : c.Structures with
    | error e =>
      rw [pollNest_structures_error c s e h, pollNest_structures_error c _ e h]
      refine ⟨rfl, ?_⟩
      show s.errCount + 1 + 1 = s.errCount + 2
      ring
    | ok l =>
      cases hd : c.Devices with
      | error e =>
        rw [pollNest_devices_error c s l e h hd, pollNest_devices_error c _ l e h hd]
        refine ⟨rfl, ?_⟩
        show s.errCount + 1 + 1 = s.errCount + 2
        ring
      | ok d => simp [Client.fails, h, hd] at hc

/-- The scenario cycle run twice, in the same and in reversed visiting order,
and a failing cycle run twice. -/
theorem pollNest_idempotent_witness :
    (pollNest scenarioClient (pollNest scenarioClient Metrics.init).1).1.gauges
      = (pollNest scenarioClient Metrics.init).1.gauges ∧
    (pollNest ⟨.ok scenarioStructures.reverse, .ok ⟨scenarioThermostats.reverse⟩⟩
        (pollNest ⟨.ok scenarioStructures, .ok ⟨scenarioThermostats⟩⟩ Metrics.init).1).1.gauges
      = (pollNest ⟨.ok scenarioStructures, .ok ⟨scenarioThermostats⟩⟩ Metrics.init).1.gauges ∧
    (pollNest structuresDown (pollNest structuresDown Metrics.init).1).1.errCount = 0 + 2 :=
  ⟨(pollNest_idempotent Metrics.init).1 scenarioClient,
    (pollNest_idempotent Metrics.init).2.1 scenarioStructures scenarioStructures.reverse
      scenarioThermostats scenarioThermostats.reverse (List.reverse_perm _).symm
      (List.reverse_perm _).symm (by decide) (by decide)
      (by unfold Thermostat.sameSamples; decide),
    ((pollNest_idempotent Metrics.init).2.2.2 structuresDown (Or.inl rfl)).2⟩

end NestExporter
